import Mathlib

/-!
Verification of the profile registry and command-generation core of the
ssh-manager repository.  The repository ships two variants of the manager:
a basic command-line one (ssh_manager.py, class SSHProfile / SSHManager) and
an extended menu-driven one (ssh_gui.py, class SSHProfile / SSHManagerGUI)
whose profiles additionally carry tags and a use counter.  Both are embedded
below, the extended variant in namespace SshGui and the basic one in
namespace SshManager.  Python dicts are modelled as insertion-ordered
association lists, the nondeterministic environment inputs (uuid.uuid4(),
datetime.now().isoformat(), interactive answers, subprocess outcomes) are
passed as explicit parameters, and functions that print their result are
modelled as returning the printed data.
-/

/-- Python dict with string keys, as an insertion-ordered association list:
assignment to an existing key updates the value in place, assignment to a
fresh key appends at the end (CPython 3.7+ dict semantics). -/
def dinsert {α : Type} (k : String) (v : α) : List (String × α) → List (String × α)
  | [] => [(k, v)]
  | kv :: rest => if kv.1 = k then (k, v) :: rest else kv :: dinsert k v rest

/-- Python del d[k]. -/
def dremove {α : Type} (k : String) : List (String × α) → List (String × α)
  | [] => []
  | kv :: rest => if kv.1 = k then rest else kv :: dremove k rest

/-- Python membership test k in d. -/
def dmem {α : Type} (k : String) (l : List (String × α)) : Bool :=
  l.any (fun kv => kv.1 == k)

/-- Python d[k] read access, total via Option. -/
def dget {α : Type} (k : String) (l : List (String × α)) : Option α :=
  (l.find? (fun kv => kv.1 == k)).map Prod.snd

/-- Python d.values(), in insertion order. -/
def dvalues {α : Type} (l : List (String × α)) : List α := l.map Prod.snd

/-- Truthiness of a Python Optional[str] value: None and the empty string are
falsy, every other string is truthy. -/
def optStrTruthy : Option String → Bool
  | none => false
  | some s => s != ""

/-- Python idiom description or default: the f-string default built from the
host replaces a None or empty description (both __init__ constructors,
src/ssh_manager.py line 27 and src/ssh_gui.py line 40). -/
def descriptionOrDefault (description : Option String) (host : String) : String :=
  match description with
  | some d => if d = "" then "SSH connection to " ++ host else d
  | none => "SSH connection to " ++ host

/-- Python s.lower(), per-character lowercasing. -/
def strLower (s : String) : String := ⟨s.data.map Char.toLower⟩

/-- Does the second list start with the first?  Helper for substring search. -/
def chStarts : List Char → List Char → Bool
  | [], _ => true
  | _ :: _, [] => false
  | a :: as, b :: bs => a == b && chStarts as bs

/-- Contiguous containment of the first list in the second. -/
def chContains (needle : List Char) : List Char → Bool
  | [] => needle.isEmpty
  | b :: bs => chStarts needle (b :: bs) || chContains needle bs

/-- Python substring test needle in hay. -/
def strIn (needle hay : String) : Bool := chContains needle.data hay.data

namespace SshGui

/-- In-memory profile object of the extended variant
(class SSHProfile, src/ssh_gui.py lines 29-44). -/
structure SSHProfile where
  id : String
  name : String
  host : String
  username : String
  port : Int
  private_key_path : Option String
  jump_host : Option String
  description : String
  tags : List String
  created_at : String
  last_used : Option String
  use_count : Int
  deriving DecidableEq, Repr

/-- Constructor SSHProfile.__init__ (src/ssh_gui.py lines 29-44).  In Python
port defaults to 22 and the optional arguments to None; freshId stands for the
generated uuid.uuid4() and now for datetime.now().isoformat().  The
description argument is replaced by the default when it is None or empty
(Python: description or f-string default), and tags by the empty list when it
is None or empty (Python: tags or []). -/
def create (freshId now name host username : String) (port : Int)
    (private_key_path : Option String) (jump_host : Option String)
    (description : Option String) (tags : Option (List String)) : SSHProfile :=
  { id := freshId
    name := name
    host := host
    username := username
    port := port
    private_key_path := private_key_path
    jump_host := jump_host
    description := descriptionOrDefault description host
    tags :=
      match tags with
      | some l => l
      | none => []
    created_at := now
    last_used := none
    use_count := 0 }

/-- One JSON object of the profiles array of the on-disk document, restricted
to the documented shape: a field holds none when the key is absent, and for
the nullable keys the inner Option distinguishes null from a string.  The
extra component stands for any unknown additional keys. -/
structure Record where
  id : Option String
  name : Option String
  host : Option String
  username : Option String
  port : Option Int
  private_key_path : Option (Option String)
  jump_host : Option (Option String)
  description : Option (Option String)
  tags : Option (List String)
  created_at : Option String
  last_used : Option (Option String)
  use_count : Option Int
  extra : List (String × String)
  deriving DecidableEq, Repr

/-- SSHProfile.to_dict (src/ssh_gui.py lines 46-60): every attribute is
written out, None becoming JSON null. -/
def to_dict (p : SSHProfile) : Record :=
  { id := some p.id
    name := some p.name
    host := some p.host
    username := some p.username
    port := some p.port
    private_key_path := some p.private_key_path
    jump_host := some p.jump_host
    description := some (some p.description)
    tags := some p.tags
    created_at := some p.created_at
    last_used := some p.last_used
    use_count := some p.use_count
    extra := [] }

/-- SSHProfile.from_dict (src/ssh_gui.py lines 62-78).  The required keys
name, host, username and id are read with data[...], which raises KeyError
when absent (modelled as none); all other keys are read with data.get and a
default.  The constructor is invoked first (its fresh uuid is immediately
overwritten with data[...]), then id, created_at, last_used and use_count are
assigned.  now models datetime.now().isoformat(). -/
def from_dict (now : String) (data : Record) : Option SSHProfile :=
  match data.name, data.host, data.username, data.id with
  | some name, some host, some username, some id =>
    let profile := create "" now name host username (data.port.getD 22)
      (data.private_key_path.getD none) (data.jump_host.getD none)
      (data.description.getD none) (some (data.tags.getD []))
    some { profile with
      id := id
      created_at := data.created_at.getD now
      last_used := data.last_used.getD none
      use_count := data.use_count.getD 0 }
  | _, _, _, _ => none

/-- SSHProfile.generate_ssh_command (src/ssh_gui.py lines 80-93; the basic
variant at src/ssh_manager.py lines 61-74 is textually identical). -/
def generate_ssh_command (p : SSHProfile) : String :=
  let cmd := "ssh " ++ p.username ++ "@" ++ p.host
  let cmd := if p.port ≠ 22 then cmd ++ " -p " ++ toString p.port else cmd
  let cmd :=
    if optStrTruthy p.private_key_path then cmd ++ " -i " ++ p.private_key_path.getD ""
    else cmd
  let cmd :=
    if optStrTruthy p.jump_host then cmd ++ " -J " ++ p.jump_host.getD ""
    else cmd
  cmd

/-- State of class SSHManagerGUI (src/ssh_gui.py lines 95-104): the in-memory
registry self.profiles, and the profiles array of the JSON document last
written to the config file (saved).  The config-file path and the version tag
of the document are constants that no modelled operation reads. -/
structure SSHManagerGUI where
  profiles : List (String × SSHProfile)
  saved : List Record
  deriving Repr

/-- SSHManagerGUI.save_profiles (src/ssh_gui.py lines 140-149): overwrites the
file with a document holding to_dict of every registry value. -/
def save_profiles (st : SSHManagerGUI) : SSHManagerGUI :=
  { st with saved := (dvalues st.profiles).map to_dict }

/-- Observable content of the config file when load runs: the path may be
absent, hold bytes that are not valid JSON, or hold a parsed JSON document
whose profiles key is absent or a list of records. -/
inductive FileState where
  | absent : FileState
  | invalidJson : FileState
  | doc : Option (List Record) → FileState
  deriving Repr

/-- Loop body of load_profiles: each parsed record is inserted keyed by its
name; the first record on which from_dict raises (KeyError) aborts the loop,
keeping what was already inserted, and the flag records that the except
branch printed an error message. -/
def loadList (now : String) : List Record → List (String × SSHProfile) →
    List (String × SSHProfile) × Bool
  | [], acc => (acc, false)
  | r :: rs, acc =>
    match from_dict now r with
    | some profile => loadList now rs (dinsert profile.name profile acc)
    | none => (acc, true)

/-- SSHManagerGUI.load_profiles (src/ssh_gui.py lines 128-138; the basic
variant at src/ssh_manager.py lines 87-97 is structurally identical).  The
method mutates self.profiles in place, so it receives the current state; at
construction time (the only caller) the registry is empty.  The returned flag
says whether the except branch reported a loading error. -/
def load_profiles (now : String) (file : FileState) (st : SSHManagerGUI) :
    SSHManagerGUI × Bool :=
  match file with
  | .absent => (st, false)
  | .invalidJson => (st, true)
  | .doc profilesKey =>
    let res := loadList now (profilesKey.getD []) st.profiles
    ({ st with profiles := res.1 }, res.2)

/-- Filter used by SSHManagerGUI.search_interactive (src/ssh_gui.py lines
500-509): the lowercased query must occur in the lowercased name, host,
username or description, or in some lowercased tag. -/
def matchesQuery (query_lower : String) (p : SSHProfile) : Bool :=
  strIn query_lower (strLower p.name) || strIn query_lower (strLower p.host) ||
  strIn query_lower (strLower p.username) || strIn query_lower (strLower p.description) ||
  p.tags.any (fun tag => strIn query_lower (strLower tag))

/-- Result list built by SSHManagerGUI.search_interactive (src/ssh_gui.py
lines 500-509): the loop appends the matching registry values in iteration
order, which is exactly a filter. -/
def search_interactive (query : String) (profiles : List (String × SSHProfile)) :
    List SSHProfile :=
  (dvalues profiles).filter (matchesQuery (strLower query))

/-- SSHManagerGUI.connect_to_profile (src/ssh_gui.py lines 338-376).  The
profile argument is the registry entry stored under profileName; choice is the
lowercased menu answer, where c connects, s only shows the command and
anything else returns.  On c the usage fields are stamped and the registry is
saved strictly before subprocess.run executes; procFails says whether that
subprocess invocation raises, which the surrounding try/except turns into a
printed message only.  The returned string is the displayed ssh command. -/
def connect_to_profile (now : String) (procFails : Bool) (st : SSHManagerGUI)
    (profileName : String) (choice : String) : String × SSHManagerGUI :=
  match dget profileName st.profiles with
  | none => ("", st)
  | some profile =>
    let ssh_cmd := generate_ssh_command profile
    if choice = "c" then
      let profile :=
        { profile with last_used := some now, use_count := profile.use_count + 1 }
      (ssh_cmd, save_profiles { st with profiles := dinsert profileName profile st.profiles })
    else (ssh_cmd, st)

/-- Stripped interactive answers of edit_profile_interactive, in prompt
order; the empty string means the user pressed Enter to keep the field. -/
structure EditInput where
  new_name : String
  new_host : String
  new_username : String
  new_port : String
  new_key : String
  new_jump : String
  new_desc : String
  deriving Repr

/-- Field updates of edit_profile_interactive after the name step
(src/ssh_gui.py lines 414-439): each non-empty answer overwrites the field;
an unparsable port answer only prints an error and keeps editing. -/
def applyFieldEdits (inp : EditInput) (profile : SSHProfile) : SSHProfile :=
  let profile := if inp.new_host ≠ "" then { profile with host := inp.new_host } else profile
  let profile :=
    if inp.new_username ≠ "" then { profile with username := inp.new_username } else profile
  let profile :=
    if inp.new_port ≠ "" then
      match inp.new_port.toInt? with
      | some n => { profile with port := n }
      | none => profile
    else profile
  let profile :=
    if inp.new_key ≠ "" then { profile with private_key_path := some inp.new_key } else profile
  let profile :=
    if inp.new_jump ≠ "" then { profile with jump_host := some inp.new_jump } else profile
  let profile :=
    if inp.new_desc ≠ "" then { profile with description := inp.new_desc } else profile
  profile

/-- SSHManagerGUI.edit_profile_interactive (src/ssh_gui.py lines 378-451) for
a selected existing profile.  A new name that collides with another entry
aborts with no mutation; otherwise a rename deletes the old key and updates
the name field, the remaining answers are applied, and the profile is stored
under its (possibly new) name and saved. -/
def edit_profile_interactive (st : SSHManagerGUI) (selectedName : String)
    (inp : EditInput) : SSHManagerGUI :=
  match dget selectedName st.profiles with
  | none => st
  | some profile =>
    if inp.new_name ≠ "" ∧ inp.new_name ≠ profile.name then
      if dmem inp.new_name st.profiles then st
      else
        let profiles := dremove profile.name st.profiles
        let profile := { profile with name := inp.new_name }
        let profile := applyFieldEdits inp profile
        save_profiles { st with profiles := dinsert profile.name profile profiles }
    else
      let profile := applyFieldEdits inp profile
      save_profiles { st with profiles := dinsert profile.name profile st.profiles }

/-- Loop of SSHManagerGUI.import_profiles (src/ssh_gui.py lines 616-631).
ask models the per-name overwrite prompt answer being y; a record on which
from_dict raises aborts the whole try block (modelled by the false flag),
keeping the profiles imported so far but skipping the save. -/
def importLoop (now : String) (ask : String → Bool) :
    List Record → List (String × SSHProfile) → List (String × SSHProfile) × Bool
  | [], acc => (acc, true)
  | r :: rs, acc =>
    match from_dict now r with
    | none => (acc, false)
    | some profile =>
      if dmem profile.name acc ∧ ¬ask profile.name then importLoop now ask rs acc
      else importLoop now ask rs (dinsert profile.name profile acc)

/-- SSHManagerGUI.import_profiles (src/ssh_gui.py lines 608-637) after the
file was read and parsed to a document whose profiles key holds records. -/
def import_profiles (now : String) (ask : String → Bool) (st : SSHManagerGUI)
    (records : List Record) : SSHManagerGUI :=
  let res := importLoop now ask records st.profiles
  let st := { st with profiles := res.1 }
  if res.2 then save_profiles st else st

/-- SSHManagerGUI.reset_profiles (src/ssh_gui.py lines 687-697): only the
exact confirmation clears the registry and saves. -/
def reset_profiles (st : SSHManagerGUI) (confirm : String) : SSHManagerGUI :=
  if confirm = "DELETE ALL" then save_profiles { st with profiles := [] } else st

/-- Aggregate total of show_statistics (src/ssh_gui.py line 534). -/
def statTotal (profiles : List (String × SSHProfile)) : Nat :=
  (dvalues profiles).length

/-- Aggregate with_keys of show_statistics (src/ssh_gui.py line 535):
profiles whose private_key_path is truthy. -/
def with_keys (profiles : List (String × SSHProfile)) : Nat :=
  (dvalues profiles).countP (fun p => optStrTruthy p.private_key_path)

/-- Aggregate with_jump of show_statistics (src/ssh_gui.py line 536). -/
def with_jump (profiles : List (String × SSHProfile)) : Nat :=
  (dvalues profiles).countP (fun p => optStrTruthy p.jump_host)

/-- Aggregate never_used of show_statistics (src/ssh_gui.py line 537). -/
def never_used (profiles : List (String × SSHProfile)) : Nat :=
  (dvalues profiles).countP (fun p => p.use_count == 0)

/-- One step of the port histogram of show_statistics (src/ssh_gui.py lines
540-542): ports[port] = ports.get(port, 0) + 1 on an insertion-ordered dict. -/
def bumpPort (m : List (Int × Nat)) (k : Int) : List (Int × Nat) :=
  match m with
  | [] => [(k, 1)]
  | kc :: rest => if kc.1 = k then (k, kc.2 + 1) :: rest else kc :: bumpPort rest k

/-- Port histogram of show_statistics (src/ssh_gui.py lines 540-542). -/
def ports_hist (profiles : List (String × SSHProfile)) : List (Int × Nat) :=
  (dvalues profiles).foldl (fun m p => bumpPort m p.port) []

/-- Lookup in the port histogram with default 0. -/
def histCount (m : List (Int × Nat)) (k : Int) : Nat :=
  ((m.find? (fun kc => kc.1 == k)).map Prod.snd).getD 0

/-- Stable insertion into a list sorted by use_count descending: the new
element (which originates earlier in the input) is placed before every
element of equal count. -/
def insertByUse (p : SSHProfile) : List SSHProfile → List SSHProfile
  | [] => [p]
  | q :: qs => if q.use_count > p.use_count then q :: insertByUse p qs else p :: q :: qs

/-- Stable descending sort by use_count, modelling Python's stable
sorted(..., reverse sort on the use_count key) used at src/ssh_gui.py
line 545.  Stability is proved, not assumed: the claim theorem shows the
result is a permutation, sorted descending, and preserves the input order
inside every equal-count class, which characterises the stable sort. -/
def sortByUse : List SSHProfile → List SSHProfile
  | [] => []
  | p :: ps => insertByUse p (sortByUse ps)

/-- Aggregate most_used of show_statistics (src/ssh_gui.py line 545). -/
def most_used (profiles : List (String × SSHProfile)) : List SSHProfile :=
  (sortByUse (dvalues profiles)).take 5

/-- Bundle of the aggregates that show_statistics reports, named after the
local variables of src/ssh_gui.py lines 534-545. -/
structure Statistics where
  total : Nat
  with_keys : Nat
  with_jump : Nat
  never_used : Nat
  ports : List (Int × Nat)
  most_used : List SSHProfile
  deriving Repr

/-- SSHManagerGUI.show_statistics (src/ssh_gui.py lines 524-564).  On an
empty registry the method prints only a no-profiles notice and returns
without computing or reporting any aggregate (the early return at lines
529-532, modelled as none); otherwise it computes the aggregates of lines
534-545 on demand and reports them. -/
def show_statistics (st : SSHManagerGUI) : Option Statistics :=
  if st.profiles.isEmpty then none
  else
    some
      { total := statTotal st.profiles
        with_keys := with_keys st.profiles
        with_jump := with_jump st.profiles
        never_used := never_used st.profiles
        ports := ports_hist st.profiles
        most_used := most_used st.profiles }

end SshGui

namespace SshManager

/-- In-memory profile object of the basic variant (class SSHProfile,
src/ssh_manager.py lines 16-29): no tags and no use counter. -/
structure SSHProfile where
  id : String
  name : String
  host : String
  username : String
  port : Int
  private_key_path : Option String
  jump_host : Option String
  description : String
  created_at : String
  last_used : Option String
  deriving DecidableEq, Repr

/-- Constructor SSHProfile.__init__ (src/ssh_manager.py lines 17-29); see
SshGui.create for the parameter conventions. -/
def create (freshId now name host username : String) (port : Int)
    (private_key_path : Option String) (jump_host : Option String)
    (description : Option String) : SSHProfile :=
  { id := freshId
    name := name
    host := host
    username := username
    port := port
    private_key_path := private_key_path
    jump_host := jump_host
    description := descriptionOrDefault description host
    created_at := now
    last_used := none }

/-- One JSON object of the profiles array, basic variant; see SshGui.Record. -/
structure Record where
  id : Option String
  name : Option String
  host : Option String
  username : Option String
  port : Option Int
  private_key_path : Option (Option String)
  jump_host : Option (Option String)
  description : Option (Option String)
  created_at : Option String
  last_used : Option (Option String)
  extra : List (String × String)
  deriving DecidableEq, Repr

/-- SSHProfile.to_dict (src/ssh_manager.py lines 31-43). -/
def to_dict (p : SSHProfile) : Record :=
  { id := some p.id
    name := some p.name
    host := some p.host
    username := some p.username
    port := some p.port
    private_key_path := some p.private_key_path
    jump_host := some p.jump_host
    description := some (some p.description)
    created_at := some p.created_at
    last_used := some p.last_used
    extra := [] }

/-- SSHProfile.from_dict (src/ssh_manager.py lines 45-59); see
SshGui.from_dict for the conventions. -/
def from_dict (now : String) (data : Record) : Option SSHProfile :=
  match data.name, data.host, data.username, data.id with
  | some name, some host, some username, some id =>
    let profile := create "" now name host username (data.port.getD 22)
      (data.private_key_path.getD none) (data.jump_host.getD none)
      (data.description.getD none)
    some { profile with
      id := id
      created_at := data.created_at.getD now
      last_used := data.last_used.getD none }
  | _, _, _, _ => none

/-- SSHProfile.generate_ssh_command (src/ssh_manager.py lines 61-74). -/
def generate_ssh_command (p : SSHProfile) : String :=
  let cmd := "ssh " ++ p.username ++ "@" ++ p.host
  let cmd := if p.port ≠ 22 then cmd ++ " -p " ++ toString p.port else cmd
  let cmd :=
    if optStrTruthy p.private_key_path then cmd ++ " -i " ++ p.private_key_path.getD ""
    else cmd
  let cmd :=
    if optStrTruthy p.jump_host then cmd ++ " -J " ++ p.jump_host.getD ""
    else cmd
  cmd

/-- State of class SSHManager (src/ssh_manager.py lines 76-85); see
SshGui.SSHManagerGUI. -/
structure SSHManager where
  profiles : List (String × SSHProfile)
  saved : List Record
  deriving Repr

/-- SSHManager.save_profiles (src/ssh_manager.py lines 99-108). -/
def save_profiles (st : SSHManager) : SSHManager :=
  { st with saved := (dvalues st.profiles).map to_dict }

/-- Observable config-file content for the basic variant. -/
inductive FileState where
  | absent : FileState
  | invalidJson : FileState
  | doc : Option (List Record) → FileState
  deriving Repr

/-- Loop body of SSHManager.load_profiles; see SshGui.loadList. -/
def loadList (now : String) : List Record → List (String × SSHProfile) →
    List (String × SSHProfile) × Bool
  | [], acc => (acc, false)
  | r :: rs, acc =>
    match from_dict now r with
    | some profile => loadList now rs (dinsert profile.name profile acc)
    | none => (acc, true)

/-- SSHManager.load_profiles (src/ssh_manager.py lines 87-97); see
SshGui.load_profiles. -/
def load_profiles (now : String) (file : FileState) (st : SSHManager) :
    SSHManager × Bool :=
  match file with
  | .absent => (st, false)
  | .invalidJson => (st, true)
  | .doc profilesKey =>
    let res := loadList now (profilesKey.getD []) st.profiles
    ({ st with profiles := res.1 }, res.2)

/-- SSHManager.add_profile (src/ssh_manager.py lines 110-123): a present name
fails with no mutation and no save; otherwise the constructed profile is
inserted keyed by name and the registry is saved. -/
def add_profile (freshId now : String) (st : SSHManager) (name host username : String)
    (port : Int) (private_key_path : Option String) (jump_host : Option String)
    (description : Option String) : Bool × SSHManager :=
  if dmem name st.profiles then (false, st)
  else
    let profile := create freshId now name host username port private_key_path
      jump_host description
    (true, save_profiles { st with profiles := dinsert name profile st.profiles })

/-- SSHManager.remove_profile (src/ssh_manager.py lines 174-183). -/
def remove_profile (st : SSHManager) (name : String) : Bool × SSHManager :=
  if dmem name st.profiles then
    (true, save_profiles { st with profiles := dremove name st.profiles })
  else (false, st)

/-- SSHManager.connect (src/ssh_manager.py lines 144-172).  On a dry run the
command is printed and nothing changes; otherwise last_used is stamped and the
registry saved strictly before subprocess.run executes, whose failure
(procFails) is caught and only printed.  The returned string is the dry-run or
connection command that the method prints. -/
def connect (now : String) (procFails : Bool) (st : SSHManager) (name : String)
    (dry_run : Bool) : Option String × SSHManager :=
  match dget name st.profiles with
  | none => (none, st)
  | some profile =>
    let ssh_cmd := generate_ssh_command profile
    if dry_run then (some ssh_cmd, st)
    else
      let profile := { profile with last_used := some now }
      (some ssh_cmd, save_profiles { st with profiles := dinsert name profile st.profiles })

end SshManager

/-- Registry shape invariant: every entry of the map is stored under exactly
the key equal to its profile's name, and the keys are pairwise distinct. -/
def Keyed {α : Type} (nameOf : α → String) (profiles : List (String × α)) : Prop :=
  (∀ kv ∈ profiles, kv.1 = nameOf kv.2) ∧ (profiles.map Prod.fst).Nodup

instance {α : Type} (nameOf : α → String) (profiles : List (String × α)) :
    Decidable (Keyed nameOf profiles) := by
  unfold Keyed
  infer_instance

namespace Fixtures

/-- Example profile named production-web from the search property of the spec. -/
def prodWeb : SshGui.SSHProfile :=
  { id := "id-1", name := "production-web", host := "10.0.0.1", username := "deploy",
    port := 22, private_key_path := none, jump_host := none,
    description := "web server", tags := [], created_at := "2025-01-01T00:00:00",
    last_used := none, use_count := 0 }

/-- Example profile named development-api from the search property of the spec. -/
def devApi : SshGui.SSHProfile :=
  { id := "id-2", name := "development-api", host := "10.0.0.2", username := "dev",
    port := 22, private_key_path := none, jump_host := none,
    description := "api server", tags := [], created_at := "2025-01-01T00:00:00",
    last_used := none, use_count := 0 }

/-- Example profile named database-server from the search property of the spec. -/
def dbServer : SshGui.SSHProfile :=
  { id := "id-3", name := "database-server", host := "10.0.0.3", username := "dba",
    port := 22, private_key_path := none, jump_host := none,
    description := "db server", tags := [], created_at := "2025-01-01T00:00:00",
    last_used := none, use_count := 0 }

/-- Registry holding exactly the three example profiles, in that order. -/
def registry3 : List (String × SshGui.SSHProfile) :=
  [("production-web", prodWeb), ("development-api", devApi), ("database-server", dbServer)]

/-- Complete stored record, used by the load counterexample. -/
def goodRec : SshManager.Record :=
  { id := some "id-a", name := some "alpha", host := some "a.example",
    username := some "root", port := none, private_key_path := none, jump_host := none,
    description := none, created_at := none, last_used := none, extra := [] }

/-- Stored record missing the required host key, used by the load counterexample. -/
def badRec : SshManager.Record :=
  { id := some "id-b", name := some "beta", host := none, username := some "root",
    port := none, private_key_path := none, jump_host := none, description := none,
    created_at := none, last_used := none, extra := [] }

/-- Profile produced by loading goodRec at time T. -/
def goodProfile : SshManager.SSHProfile :=
  { id := "id-a", name := "alpha", host := "a.example", username := "root", port := 22,
    private_key_path := none, jump_host := none,
    description := "SSH connection to a.example", created_at := "T", last_used := none }

end Fixtures

/-! Helper lemmas about the dict model. -/

theorem mem_dinsert {α : Type} {k : String} {v : α} {l : List (String × α)}
    {kv : String × α} (h : kv ∈ dinsert k v l) : kv = (k, v) ∨ kv ∈ l := by
  induction l with
  | nil =>
    simp [dinsert] at h
    exact Or.inl h
  | cons a rest ih =>
    by_cases hk : a.1 = k
    · simp only [dinsert, if_pos hk] at h
      rcases List.mem_cons.mp h with h1 | h2
      · exact Or.inl h1
      · exact Or.inr (List.mem_cons_of_mem _ h2)
    · simp only [dinsert, if_neg hk] at h
      rcases List.mem_cons.mp h with h1 | h2
      · exact Or.inr (h1 ▸ List.mem_cons_self _ _)
      · rcases ih h2 with h3 | h4
        · exact Or.inl h3
        · exact Or.inr (List.mem_cons_of_mem _ h4)

theorem mem_keys_dinsert {α : Type} {k : String} {v : α} {l : List (String × α)}
    {x : String} (h : x ∈ (dinsert k v l).map Prod.fst) : x = k ∨ x ∈ l.map Prod.fst := by
  rcases List.mem_map.mp h with ⟨kv, hkv, hx⟩
  rcases mem_dinsert hkv with h1 | h2
  · left
    rw [← hx, h1]
  · right
    exact List.mem_map.mpr ⟨kv, h2, hx⟩

theorem nodup_keys_dinsert {α : Type} (k : String) (v : α) {l : List (String × α)}
    (h : (l.map Prod.fst).Nodup) : ((dinsert k v l).map Prod.fst).Nodup := by
  induction l with
  | nil => simp [dinsert]
  | cons a rest ih =>
    rw [List.map_cons, List.nodup_cons] at h
    by_cases hk : a.1 = k
    · simp only [dinsert, if_pos hk, List.map_cons, List.nodup_cons]
      exact ⟨hk ▸ h.1, h.2⟩
    · simp only [dinsert, if_neg hk, List.map_cons, List.nodup_cons]
      refine ⟨fun hmem => ?_, ih h.2⟩
      rcases mem_keys_dinsert hmem with h1 | h2
      · exact hk h1
      · exact h.1 h2

theorem dget_dinsert_self {α : Type} (k : String) (v : α) (l : List (String × α)) :
    dget k (dinsert k v l) = some v := by
  induction l with
  | nil => simp [dget, dinsert]
  | cons a rest ih =>
    by_cases hk : a.1 = k
    · simp [dget, dinsert, if_pos hk]
    · have hbeq : (a.1 == k) = false := beq_eq_false_iff_ne.mpr hk
      simp only [dinsert, if_neg hk]
      simpa [dget, List.find?, hbeq] using ih

theorem dget_dinsert_ne {α : Type} {q k : String} (v : α) (l : List (String × α))
    (h : q ≠ k) : dget q (dinsert k v l) = dget q l := by
  induction l with
  | nil =>
    have hbeq : (k == q) = false := beq_eq_false_iff_ne.mpr (Ne.symm h)
    simp [dget, dinsert, List.find?, hbeq]
  | cons a rest ih =>
    by_cases hk : a.1 = k
    · have hbeq : (k == q) = false := beq_eq_false_iff_ne.mpr (Ne.symm h)
      have hbeq2 : (a.1 == q) = false := by
        rw [hk]
        exact hbeq
      simp [dget, dinsert, if_pos hk, List.find?, hbeq, hbeq2]
    · by_cases haq : a.1 = q
      · have hbeq : (a.1 == q) = true := beq_iff_eq.mpr haq
        simp [dget, dinsert, if_neg hk, List.find?, hbeq]
      · have hbeq : (a.1 == q) = false := beq_eq_false_iff_ne.mpr haq
        simp only [dinsert, if_neg hk]
        simpa [dget, List.find?, hbeq] using ih

theorem mem_dremove {α : Type} {k : String} {l : List (String × α)} {kv : String × α}
    (h : kv ∈ dremove k l) : kv ∈ l := by
  induction l with
  | nil => simpa [dremove] using h
  | cons a rest ih =>
    by_cases hk : a.1 = k
    · simp only [dremove, if_pos hk] at h
      exact List.mem_cons_of_mem _ h
    · simp only [dremove, if_neg hk] at h
      rcases List.mem_cons.mp h with h1 | h2
      · exact h1 ▸ List.mem_cons_self _ _
      · exact List.mem_cons_of_mem _ (ih h2)

theorem keys_dremove_sublist {α : Type} (k : String) (l : List (String × α)) :
    ((dremove k l).map Prod.fst).Sublist (l.map Prod.fst) := by
  induction l with
  | nil => simp [dremove]
  | cons a rest ih =>
    by_cases hk : a.1 = k
    · simp only [dremove, if_pos hk, List.map_cons]
      exact List.sublist_cons_self _ _
    · simp only [dremove, if_neg hk, List.map_cons]
      exact ih.cons_cons _

theorem keyed_nil {α : Type} (nameOf : α → String) : Keyed nameOf [] := by
  constructor
  · intro kv hkv
    simp at hkv
  · simp

theorem keyed_dinsert {α : Type} {nameOf : α → String} {l : List (String × α)}
    {k : String} {v : α} (h : Keyed nameOf l) (hk : k = nameOf v) :
    Keyed nameOf (dinsert k v l) := by
  constructor
  · intro kv hkv
    rcases mem_dinsert hkv with h1 | h2
    · rw [h1]
      exact hk
    · exact h.1 kv h2
  · exact nodup_keys_dinsert k v h.2

theorem keyed_dremove {α : Type} {nameOf : α → String} {l : List (String × α)}
    (k : String) (h : Keyed nameOf l) : Keyed nameOf (dremove k l) := by
  constructor
  · intro kv hkv
    exact h.1 kv (mem_dremove hkv)
  · exact (keys_dremove_sublist k l).nodup h.2

/-! Helper lemmas about the substring test. -/

theorem chStarts_iff : ∀ n h : List Char, chStarts n h = true ↔ n <+: h
  | [], h => by simp [chStarts]
  | _ :: _, [] => by simp [chStarts, List.prefix_nil]
  | a :: as, b :: bs => by
    simp [chStarts, List.cons_prefix_cons, chStarts_iff as bs, Bool.and_eq_true, beq_iff_eq]

theorem chContains_iff : ∀ (n h : List Char), chContains n h = true ↔ n <:+: h
  | n, [] => by
    simp [chContains, List.isEmpty_iff, List.infix_nil]
  | n, b :: bs => by
    simp [chContains, Bool.or_eq_true, chStarts_iff n (b :: bs), chContains_iff n bs,
      List.infix_cons_iff]

theorem strIn_iff (needle hay : String) : strIn needle hay = true ↔ needle.data <:+: hay.data :=
  chContains_iff needle.data hay.data

/-! Helper lemmas about the port histogram. -/

theorem histCount_bumpPort (m : List (Int × Nat)) (k q : Int) :
    SshGui.histCount (SshGui.bumpPort m k) q =
      if q = k then SshGui.histCount m q + 1 else SshGui.histCount m q := by
  induction m with
  | nil =>
    by_cases hq : q = k
    · subst hq
      simp [SshGui.histCount, SshGui.bumpPort, List.find?]
    · have hbeq : (k == q) = false := beq_eq_false_iff_ne.mpr (Ne.symm hq)
      simp [SshGui.histCount, SshGui.bumpPort, List.find?, hbeq, hq]
  | cons a rest ih =>
    by_cases hk : a.1 = k
    · by_cases hq : q = k
      · subst hq
        have hbeq : (a.1 == q) = true := beq_iff_eq.mpr hk
        simp [SshGui.histCount, SshGui.bumpPort, if_pos hk, List.find?, hbeq, hk]
      · have hbeq : (k == q) = false := beq_eq_false_iff_ne.mpr (Ne.symm hq)
        have hbeq2 : (a.1 == q) = false := by
          rw [hk]
          exact hbeq
        simp [SshGui.histCount, SshGui.bumpPort, if_pos hk, List.find?, hbeq, hbeq2, hq]
    · by_cases haq : a.1 = q
      · have hbeq : (a.1 == q) = true := beq_iff_eq.mpr haq
        have hq : ¬q = k := fun h => hk (haq.symm ▸ h)
        simp [SshGui.histCount, SshGui.bumpPort, if_neg hk, List.find?, hbeq, hq]
      · have hbeq : (a.1 == q) = false := beq_eq_false_iff_ne.mpr haq
        have ih2 := ih
        simp only [SshGui.bumpPort, if_neg hk]
        simp only [SshGui.histCount, List.find?, hbeq] at ih2 ⊢
        exact ih2

theorem histCount_foldl (l : List SshGui.SSHProfile) :
    ∀ (m : List (Int × Nat)) (k : Int),
      SshGui.histCount (l.foldl (fun m p => SshGui.bumpPort m p.port) m) k =
        SshGui.histCount m k + l.countP (fun p => p.port == k) := by
  induction l with
  | nil => simp
  | cons p rest ih =>
    intro m k
    simp only [List.foldl_cons, List.countP_cons, ih (SshGui.bumpPort m p.port) k,
      histCount_bumpPort]
    by_cases hq : k = p.port
    · have hbeq : (p.port == k) = true := beq_iff_eq.mpr hq.symm
      simp [hq, hbeq]
      omega
    · have hbeq : (p.port == k) = false := beq_eq_false_iff_ne.mpr (fun h => hq (h.symm))
      simp [hq, hbeq]

/-! Helper lemmas about the stable descending sort used for the most-used
statistic. -/

theorem insertByUse_perm (p : SshGui.SSHProfile) (l : List SshGui.SSHProfile) :
    (SshGui.insertByUse p l).Perm (p :: l) := by
  induction l with
  | nil => simp [SshGui.insertByUse]
  | cons q qs ih =>
    by_cases hq : q.use_count > p.use_count
    · simp only [SshGui.insertByUse, if_pos hq]
      exact (ih.cons q).trans (List.Perm.swap p q qs)
    · simp [SshGui.insertByUse, if_neg hq]

theorem sortByUse_perm (l : List SshGui.SSHProfile) : (SshGui.sortByUse l).Perm l := by
  induction l with
  | nil => simp [SshGui.sortByUse]
  | cons p ps ih =>
    exact (insertByUse_perm p (SshGui.sortByUse ps)).trans (ih.cons p)

theorem insertByUse_pairwise (p : SshGui.SSHProfile) (l : List SshGui.SSHProfile)
    (h : l.Pairwise (fun a b => b.use_count ≤ a.use_count)) :
    (SshGui.insertByUse p l).Pairwise (fun a b => b.use_count ≤ a.use_count) := by
  induction l with
  | nil => simp [SshGui.insertByUse]
  | cons q qs ih =>
    rcases List.pairwise_cons.mp h with ⟨hq, hqs⟩
    by_cases hgt : q.use_count > p.use_count
    · simp only [SshGui.insertByUse, if_pos hgt]
      refine List.pairwise_cons.mpr ⟨?_, ih hqs⟩
      intro x hx
      rcases List.mem_cons.mp ((insertByUse_perm p qs).mem_iff.mp hx) with h1 | h2
      · exact h1 ▸ le_of_lt hgt
      · exact hq x h2
    · simp only [SshGui.insertByUse, if_neg hgt]
      refine List.pairwise_cons.mpr ⟨?_, h⟩
      intro x hx
      rcases List.mem_cons.mp hx with h1 | h2
      · exact h1 ▸ le_of_not_lt hgt
      · exact le_trans (hq x h2) (le_of_not_lt hgt)

theorem sortByUse_pairwise (l : List SshGui.SSHProfile) :
    (SshGui.sortByUse l).Pairwise (fun a b => b.use_count ≤ a.use_count) := by
  induction l with
  | nil => simp [SshGui.sortByUse]
  | cons p ps ih => exact insertByUse_pairwise p (SshGui.sortByUse ps) ih

theorem filter_insertByUse (p : SshGui.SSHProfile) (l : List SshGui.SSHProfile) (c : Int) :
    (SshGui.insertByUse p l).filter (fun q => q.use_count == c) =
      if p.use_count == c then p :: l.filter (fun q => q.use_count == c)
      else l.filter (fun q => q.use_count == c) := by
  induction l with
  | nil =>
    by_cases hp : p.use_count = c
    · simp [SshGui.insertByUse, List.filter, beq_iff_eq.mpr hp]
    · simp [SshGui.insertByUse, List.filter, beq_eq_false_iff_ne.mpr hp]
  | cons q qs ih =>
    by_cases hgt : q.use_count > p.use_count
    · by_cases hqc : q.use_count = c
      · have hpc : (p.use_count == c) = false := by
          refine beq_eq_false_iff_ne.mpr (fun h => ?_)
          rw [h, ← hqc] at hgt
          exact lt_irrefl _ hgt
        simp [SshGui.insertByUse, if_pos hgt, List.filter_cons, beq_iff_eq.mpr hqc, ih, hpc]
      · simp [SshGui.insertByUse, if_pos hgt, List.filter_cons,
          beq_eq_false_iff_ne.mpr hqc, ih]
    · by_cases hpc : p.use_count = c
      · simp [SshGui.insertByUse, if_neg hgt, List.filter_cons, beq_iff_eq.mpr hpc]
      · simp [SshGui.insertByUse, if_neg hgt, List.filter_cons,
          beq_eq_false_iff_ne.mpr hpc]

theorem filter_sortByUse (l : List SshGui.SSHProfile) (c : Int) :
    (SshGui.sortByUse l).filter (fun q => q.use_count == c) =
      l.filter (fun q => q.use_count == c) := by
  induction l with
  | nil => simp [SshGui.sortByUse]
  | cons p ps ih =>
    by_cases hpc : p.use_count = c
    · simp [SshGui.sortByUse, filter_insertByUse, beq_iff_eq.mpr hpc, ih, List.filter_cons]
    · simp [SshGui.sortByUse, filter_insertByUse, beq_eq_false_iff_ne.mpr hpc, ih,
        List.filter_cons]

/-! Helper lemmas about loading and importing. -/

theorem loadList_eq_mgr (now : String) :
    ∀ (rs : List SshManager.Record) (acc : List (String × SshManager.SSHProfile)),
      SshManager.loadList now rs acc =
        ((rs.takeWhile (fun r => (SshManager.from_dict now r).isSome)).foldl
          (fun acc r =>
            match SshManager.from_dict now r with
            | some p => dinsert p.name p acc
            | none => acc) acc,
         !rs.all (fun r => (SshManager.from_dict now r).isSome)) := by
  intro rs
  induction rs with
  | nil => intro acc; simp [SshManager.loadList]
  | cons r rest ih =>
    intro acc
    cases hfd : SshManager.from_dict now r with
    | some p =>
      simp [SshManager.loadList, hfd, List.takeWhile_cons, ih]
    | none =>
      simp [SshManager.loadList, hfd, List.takeWhile_cons]

theorem loadList_eq_gui (now : String) :
    ∀ (rs : List SshGui.Record) (acc : List (String × SshGui.SSHProfile)),
      SshGui.loadList now rs acc =
        ((rs.takeWhile (fun r => (SshGui.from_dict now r).isSome)).foldl
          (fun acc r =>
            match SshGui.from_dict now r with
            | some p => dinsert p.name p acc
            | none => acc) acc,
         !rs.all (fun r => (SshGui.from_dict now r).isSome)) := by
  intro rs
  induction rs with
  | nil => intro acc; simp [SshGui.loadList]
  | cons r rest ih =>
    intro acc
    cases hfd : SshGui.from_dict now r with
    | some p =>
      simp [SshGui.loadList, hfd, List.takeWhile_cons, ih]
    | none =>
      simp [SshGui.loadList, hfd, List.takeWhile_cons]

theorem loadList_keyed_mgr (now : String) (rs : List SshManager.Record) :
    ∀ acc, Keyed SshManager.SSHProfile.name acc →
      Keyed SshManager.SSHProfile.name (SshManager.loadList now rs acc).1 := by
  induction rs with
  | nil => intro acc h; simpa [SshManager.loadList] using h
  | cons r rest ih =>
    intro acc h
    cases hfd : SshManager.from_dict now r with
    | some p =>
      simp only [SshManager.loadList, hfd]
      exact ih _ (keyed_dinsert h rfl)
    | none =>
      simpa [SshManager.loadList, hfd] using h

theorem importLoop_keyed (now : String) (ask : String → Bool) (rs : List SshGui.Record) :
    ∀ acc, Keyed SshGui.SSHProfile.name acc →
      Keyed SshGui.SSHProfile.name (SshGui.importLoop now ask rs acc).1 := by
  induction rs with
  | nil => intro acc h; simpa [SshGui.importLoop] using h
  | cons r rest ih =>
    intro acc h
    cases hfd : SshGui.from_dict now r with
    | some p =>
      by_cases hskip : dmem p.name acc = true ∧ ¬ask p.name = true
      · simp only [SshGui.importLoop, hfd, if_pos hskip]
        exact ih _ h
      · simp only [SshGui.importLoop, hfd, if_neg hskip]
        exact ih _ (keyed_dinsert h rfl)
    | none =>
      simpa [SshGui.importLoop, hfd] using h

/-! Miscellaneous helper lemmas. -/

theorem optStrTruthy_eq_decide (o : Option String) :
    optStrTruthy o = decide (o ≠ none ∧ o ≠ some "") := by
  cases o with
  | none => simp [optStrTruthy]
  | some s =>
    by_cases hs : s = ""
    · simp [optStrTruthy, hs]
    · simp [optStrTruthy, hs]

theorem default_description_ne (host : String) : "SSH connection to " ++ host ≠ "" := by
  intro h
  have hlen := congrArg String.length h
  rw [String.length_append] at hlen
  have h18 : ("SSH connection to " : String).length = 18 := rfl
  have h0 : ("" : String).length = 0 := rfl
  rw [h18, h0] at hlen
  omega

theorem descriptionOrDefault_ne (desc : Option String) (host : String) :
    descriptionOrDefault desc host ≠ "" := by
  cases desc with
  | none => exact default_description_ne host
  | some d =>
    by_cases hd : d = ""
    · simpa [descriptionOrDefault, hd] using default_description_ne host
    · simpa [descriptionOrDefault, hd] using hd

theorem create_description_ne_gui (freshId now name host username : String) (port : Int)
    (key jump : Option String) (desc : Option String) (tags : Option (List String)) :
    (SshGui.create freshId now name host username port key jump desc tags).description ≠ "" :=
  descriptionOrDefault_ne desc host

/-! Claim theorems. -/

/-- C1: the command builder is a pure, deterministic function of the profile
fields with fixed flag order: it returns ssh username@host, then appends the
-p flag exactly when the port differs from 22 (port 22 never produces one),
then the -i flag exactly when the private key path is non-null and non-empty,
then the -J flag exactly when the jump host is set; in particular a profile
with user u, host h, port 2222, key ~/.ssh/k and jump j@b yields exactly
the string ssh u@h -p 2222 -i ~/.ssh/k -J j@b.  Stated for both variants,
whose builders are textually identical. -/
theorem C1_command_builder :
    (∀ p : SshGui.SSHProfile,
      SshGui.generate_ssh_command p =
        "ssh " ++ p.username ++ "@" ++ p.host
          ++ (if p.port = 22 then "" else " -p " ++ toString p.port)
          ++ (match p.private_key_path with
              | none => ""
              | some k => if k = "" then "" else " -i " ++ k)
          ++ (match p.jump_host with
              | none => ""
              | some j => if j = "" then "" else " -J " ++ j)) ∧
    (∀ p : SshManager.SSHProfile,
      SshManager.generate_ssh_command p =
        "ssh " ++ p.username ++ "@" ++ p.host
          ++ (if p.port = 22 then "" else " -p " ++ toString p.port)
          ++ (match p.private_key_path with
              | none => ""
              | some k => if k = "" then "" else " -i " ++ k)
          ++ (match p.jump_host with
              | none => ""
              | some j => if j = "" then "" else " -J " ++ j)) ∧
    (∀ p : SshGui.SSHProfile, p.username = "u" → p.host = "h" → p.port = 2222 →
      p.private_key_path = some "~/.ssh/k" → p.jump_host = some "j@b" →
      SshGui.generate_ssh_command p = "ssh u@h -p 2222 -i ~/.ssh/k -J j@b") := by
  refine ⟨?_, ?_, ?_⟩
  · intro p
    obtain ⟨pid, pname, phost, puser, pport, pkey, pjump, pdesc, ptags, pcr, plu, puc⟩ := p
    by_cases h22 : pport = 22 <;>
      cases pkey with
      | none =>
        cases pjump with
        | none => simp [SshGui.generate_ssh_command, optStrTruthy, h22, String.append_assoc]
        | some j =>
          by_cases hj : j = "" <;>
            simp [SshGui.generate_ssh_command, optStrTruthy, h22, hj, String.append_assoc]
      | some k =>
        by_cases hk : k = "" <;>
          cases pjump with
          | none =>
            simp [SshGui.generate_ssh_command, optStrTruthy, h22, hk, String.append_assoc]
          | some j =>
            by_cases hj : j = "" <;>
              simp [SshGui.generate_ssh_command, optStrTruthy, h22, hk, hj,
                String.append_assoc]
  · intro p
    obtain ⟨pid, pname, phost, puser, pport, pkey, pjump, pdesc, pcr, plu⟩ := p
    by_cases h22 : pport = 22 <;>
      cases pkey with
      | none =>
        cases pjump with
        | none =>
          simp [SshManager.generate_ssh_command, optStrTruthy, h22, String.append_assoc]
        | some j =>
          by_cases hj : j = "" <;>
            simp [SshManager.generate_ssh_command, optStrTruthy, h22, hj,
              String.append_assoc]
      | some k =>
        by_cases hk : k = "" <;>
          cases pjump with
          | none =>
            simp [SshManager.generate_ssh_command, optStrTruthy, h22, hk,
              String.append_assoc]
          | some j =>
            by_cases hj : j = "" <;>
              simp [SshManager.generate_ssh_command, optStrTruthy, h22, hk, hj,
                String.append_assoc]
  · intro p hu hh hp hk hj
    obtain ⟨pid, pname, phost, puser, pport, pkey, pjump, pdesc, ptags, pcr, plu, puc⟩ := p
    simp only at hu hh hp hk hj
    subst hu hh hp hk hj
    rfl

/-- Witness for C1 at a fully concrete profile. -/
theorem C1_command_builder_witness :
    SshGui.generate_ssh_command
        ⟨"i1", "box", "h", "u", 2222, some "~/.ssh/k", some "j@b", "d", [], "T", none, 0⟩ =
      "ssh u@h -p 2222 -i ~/.ssh/k -J j@b" :=
  C1_command_builder.2.2 _ rfl rfl rfl rfl rfl

/-- C2: deserialization inverts serialization field by field.  Every profile
object has a non-empty description (the constructor replaces None and the
empty string by the default, and no registry operation writes an empty one),
and under that invariant from_dict of to_dict reproduces every field exactly,
in both variants; the third part instantiates this for every profile built by
the constructor, with no side condition. -/
theorem C2_roundtrip :
    (∀ (now : String) (p : SshGui.SSHProfile), p.description ≠ "" →
      SshGui.from_dict now (SshGui.to_dict p) = some p) ∧
    (∀ (now : String) (p : SshManager.SSHProfile), p.description ≠ "" →
      SshManager.from_dict now (SshManager.to_dict p) = some p) ∧
    (∀ (freshId now now2 name host username : String) (port : Int)
        (key jump desc : Option String) (tags : Option (List String)),
      SshGui.from_dict now2
          (SshGui.to_dict (SshGui.create freshId now name host username port key jump desc tags)) =
        some (SshGui.create freshId now name host username port key jump desc tags)) := by
  have hgui : ∀ (now : String) (p : SshGui.SSHProfile), p.description ≠ "" →
      SshGui.from_dict now (SshGui.to_dict p) = some p := by
    intro now p hd
    obtain ⟨pid, pname, phost, puser, pport, pkey, pjump, pdesc, ptags, pcr, plu, puc⟩ := p
    simp only at hd
    simp [SshGui.from_dict, SshGui.to_dict, SshGui.create, descriptionOrDefault, hd]
  refine ⟨hgui, ?_, ?_⟩
  · intro now p hd
    obtain ⟨pid, pname, phost, puser, pport, pkey, pjump, pdesc, pcr, plu⟩ := p
    simp only at hd
    simp [SshManager.from_dict, SshManager.to_dict, SshManager.create, descriptionOrDefault, hd]
  · intro freshId now now2 name host username port key jump desc tags
    exact hgui now2 _ (create_description_ne_gui freshId now name host username port key
      jump desc tags)

/-- Witness for C2 at a fully concrete profile. -/
theorem C2_roundtrip_witness :
    SshGui.from_dict "T2"
        (SshGui.to_dict
          ⟨"i1", "web", "example.com", "root", 2222, some "~/.ssh/k", some "j@b",
            "front box", ["prod", "web"], "T1", some "T3", 7⟩) =
      some
        ⟨"i1", "web", "example.com", "root", 2222, some "~/.ssh/k", some "j@b",
          "front box", ["prod", "web"], "T1", some "T3", 7⟩ :=
  C2_roundtrip.1 "T2" _ (by decide)

/-- C3 counterexample: loading a document whose first record is complete and
whose second record is missing the required host key reports the load error
but keeps the first profile in the registry, so the claimed empty mapping is
actually a partial one. -/
theorem C3_load_counterexample :
    (SshManager.load_profiles "T"
        (SshManager.FileState.doc (some [Fixtures.goodRec, Fixtures.badRec]))
        ⟨[], []⟩).2 = true ∧
    (SshManager.load_profiles "T"
        (SshManager.FileState.doc (some [Fixtures.goodRec, Fixtures.badRec]))
        ⟨[], []⟩).1.profiles = [("alpha", Fixtures.goodProfile)] := by
  constructor
  · decide
  · decide

/-- C3 (amended): load on a missing path returns the registry unchanged
(empty at construction time) and reports no error; on invalid JSON it reports
the error and leaves the registry unchanged; and the record list of a parsed
document is consumed in order, inserting every record before the first
failing one and stopping there, with an error reported exactly when some
record fails — so a bad record yields the possibly partial mapping of the
records before it, never a propagated failure.  Stated for both variants. -/
theorem C3_load_amended :
    (∀ (now : String) (st : SshManager.SSHManager),
      SshManager.load_profiles now SshManager.FileState.absent st = (st, false)) ∧
    (∀ (now : String) (st : SshManager.SSHManager),
      SshManager.load_profiles now SshManager.FileState.invalidJson st = (st, true)) ∧
    (∀ (now : String) (rs : List SshManager.Record)
        (acc : List (String × SshManager.SSHProfile)),
      SshManager.loadList now rs acc =
        ((rs.takeWhile (fun r => (SshManager.from_dict now r).isSome)).foldl
          (fun acc r =>
            match SshManager.from_dict now r with
            | some p => dinsert p.name p acc
            | none => acc) acc,
         !rs.all (fun r => (SshManager.from_dict now r).isSome))) ∧
    (∀ (now : String) (st : SshGui.SSHManagerGUI),
      SshGui.load_profiles now SshGui.FileState.absent st = (st, false)) ∧
    (∀ (now : String) (st : SshGui.SSHManagerGUI),
      SshGui.load_profiles now SshGui.FileState.invalidJson st = (st, true)) ∧
    (∀ (now : String) (rs : List SshGui.Record)
        (acc : List (String × SshGui.SSHProfile)),
      SshGui.loadList now rs acc =
        ((rs.takeWhile (fun r => (SshGui.from_dict now r).isSome)).foldl
          (fun acc r =>
            match SshGui.from_dict now r with
            | some p => dinsert p.name p acc
            | none => acc) acc,
         !rs.all (fun r => (SshGui.from_dict now r).isSome))) := by
  refine ⟨fun now st => rfl, fun now st => rfl, ?_, fun now st => rfl, fun now st => rfl, ?_⟩
  · intro now rs acc
    exact loadList_eq_mgr now rs acc
  · intro now rs acc
    exact loadList_eq_gui now rs acc

/-- C4: search returns exactly the profiles whose lowercased name, host,
username, description or some tag contains the lowercased query as a
substring, keeping registry iteration order (the result is a sublist of the
values); searching production over the three example profiles returns exactly
production-web, and the query is case-insensitive. -/
theorem C4_search :
    (∀ (query : String) (profiles : List (String × SshGui.SSHProfile)),
      (SshGui.search_interactive query profiles).Sublist (dvalues profiles)) ∧
    (∀ (query : String) (profiles : List (String × SshGui.SSHProfile))
        (p : SshGui.SSHProfile),
      p ∈ SshGui.search_interactive query profiles ↔
        p ∈ dvalues profiles ∧
          ((strLower query).data <:+: (strLower p.name).data ∨
           (strLower query).data <:+: (strLower p.host).data ∨
           (strLower query).data <:+: (strLower p.username).data ∨
           (strLower query).data <:+: (strLower p.description).data ∨
           ∃ tag ∈ p.tags, (strLower query).data <:+: (strLower tag).data)) ∧
    SshGui.search_interactive "production" Fixtures.registry3 = [Fixtures.prodWeb] ∧
    SshGui.search_interactive "PRODUCTION" Fixtures.registry3 = [Fixtures.prodWeb] := by
  refine ⟨?_, ?_, ?_, ?_⟩
  · intro query profiles
    exact List.filter_sublist _
  · intro query profiles p
    rw [SshGui.search_interactive, List.mem_filter]
    constructor
    · rintro ⟨hmem, hmatch⟩
      refine ⟨hmem, ?_⟩
      simp only [SshGui.matchesQuery, Bool.or_eq_true, List.any_eq_true, strIn_iff] at hmatch
      tauto
    · rintro ⟨hmem, hmatch⟩
      refine ⟨hmem, ?_⟩
      simp only [SshGui.matchesQuery, Bool.or_eq_true, List.any_eq_true, strIn_iff]
      tauto
  · decide
  · decide

/-- C5: adding under an existing name fails and leaves the registry and the
persisted state untouched; adding under a fresh name succeeds, inserts the
newly constructed profile keyed by that name, rewrites the persisted document
from the new registry, and a subsequent lookup of that name returns the
profile with exactly the constructed fields. -/
theorem C5_add :
    ∀ (freshId now : String) (st : SshManager.SSHManager) (name host username : String)
      (port : Int) (key jump desc : Option String),
      (dmem name st.profiles = true →
        SshManager.add_profile freshId now st name host username port key jump desc =
          (false, st)) ∧
      (dmem name st.profiles = false →
        SshManager.add_profile freshId now st name host username port key jump desc =
          (true,
            { profiles := dinsert name
                (SshManager.create freshId now name host username port key jump desc)
                st.profiles,
              saved := (dvalues (dinsert name
                (SshManager.create freshId now name host username port key jump desc)
                st.profiles)).map SshManager.to_dict }) ∧
        dget name (SshManager.add_profile freshId now st name host username port key jump
            desc).2.profiles =
          some (SshManager.create freshId now name host username port key jump desc)) := by
  intro freshId now st name host username port key jump desc
  constructor
  · intro h
    simp [SshManager.add_profile, h]
  · intro h
    constructor
    · simp [SshManager.add_profile, h, SshManager.save_profiles]
    · simp [SshManager.add_profile, h, SshManager.save_profiles, dget_dinsert_self]

/-- Witness for C5: both the duplicate-name branch and the fresh-name branch
at concrete inputs. -/
theorem C5_add_witness :
    SshManager.add_profile "i2" "T" ⟨[("a", SshManager.create "i1" "T0" "a" "h0" "u0" 22
        none none none)], []⟩ "a" "h" "u" 22 none none none =
      (false, ⟨[("a", SshManager.create "i1" "T0" "a" "h0" "u0" 22 none none none)], []⟩) ∧
    dget "a"
        (SshManager.add_profile "i2" "T" ⟨[], []⟩ "a" "h" "u" 22 none none none).2.profiles =
      some (SshManager.create "i2" "T" "a" "h" "u" 22 none none none) :=
  ⟨(C5_add "i2" "T" ⟨[("a", SshManager.create "i1" "T0" "a" "h0" "u0" 22 none none none)],
      []⟩ "a" "h" "u" 22 none none none).1 (by decide),
   ((C5_add "i2" "T" ⟨[], []⟩ "a" "h" "u" 22 none none none).2 (by decide)).2⟩

/-- C6: for a profile present in the registry, a dry-run connect (the basic
variant with dry_run, and the show-only menu answer of the extended variant)
returns the built command and changes no state at all; a real connect stamps
last_used (and, in the extended variant, increments use_count) exactly once
and saves, and the resulting value and state do not depend on whether the
subsequent external process invocation fails, since the stamp and save happen
strictly before it and its exceptions are caught. -/
theorem C6_connect :
    (∀ (now : String) (st : SshGui.SSHManagerGUI) (name choice : String)
        (profile : SshGui.SSHProfile), dget name st.profiles = some profile →
      (∀ procFails : Bool, choice ≠ "c" →
        SshGui.connect_to_profile now procFails st name choice =
          (SshGui.generate_ssh_command profile, st)) ∧
      (∀ procFails : Bool, choice = "c" →
        SshGui.connect_to_profile now procFails st name choice =
          (SshGui.generate_ssh_command profile,
            SshGui.save_profiles
              ⟨dinsert name
                ({ profile with last_used := some now, use_count := profile.use_count + 1 })
                st.profiles,
               st.saved⟩))) ∧
    (∀ (now : String) (procFails1 procFails2 : Bool) (st : SshGui.SSHManagerGUI)
        (name choice : String),
      SshGui.connect_to_profile now procFails1 st name choice =
        SshGui.connect_to_profile now procFails2 st name choice) ∧
    (∀ (now : String) (procFails : Bool) (st : SshManager.SSHManager) (name : String)
        (profile : SshManager.SSHProfile), dget name st.profiles = some profile →
      SshManager.connect now procFails st name true =
        (some (SshManager.generate_ssh_command profile), st) ∧
      SshManager.connect now procFails st name false =
        (some (SshManager.generate_ssh_command profile),
          SshManager.save_profiles
            ⟨dinsert name ({ profile with last_used := some now }) st.profiles,
             st.saved⟩)) := by
  refine ⟨?_, ?_, ?_⟩
  · intro now st name choice profile h
    constructor
    · intro procFails hc
      simp [SshGui.connect_to_profile, h, hc]
    · intro procFails hc
      simp [SshGui.connect_to_profile, h, hc]
  · intro now procFails1 procFails2 st name choice
    rfl
  · intro now procFails st name profile h
    constructor
    · simp [SshManager.connect, h]
    · simp [SshManager.connect, h]

/-- Witness for C6: the show-only and connect answers of the extended variant
and both dry-run modes of the basic variant, at concrete registries. -/
theorem C6_connect_witness :
    SshGui.connect_to_profile "T9" true
        ⟨[("a", SshGui.create "i1" "T0" "a" "h0" "u0" 22 none none none none)], []⟩ "a" "s" =
      (SshGui.generate_ssh_command (SshGui.create "i1" "T0" "a" "h0" "u0" 22 none none none
        none),
       ⟨[("a", SshGui.create "i1" "T0" "a" "h0" "u0" 22 none none none none)], []⟩) ∧
    SshGui.connect_to_profile "T9" true
        ⟨[("a", SshGui.create "i1" "T0" "a" "h0" "u0" 22 none none none none)], []⟩ "a" "c" =
      (SshGui.generate_ssh_command (SshGui.create "i1" "T0" "a" "h0" "u0" 22 none none none
        none),
       SshGui.save_profiles
        ⟨dinsert "a"
          ({ SshGui.create "i1" "T0" "a" "h0" "u0" 22 none none none none with
            last_used := some "T9",
            use_count := (SshGui.create "i1" "T0" "a" "h0" "u0" 22 none none none
              none).use_count + 1 })
          [("a", SshGui.create "i1" "T0" "a" "h0" "u0" 22 none none none none)], []⟩) ∧
    SshManager.connect "T9" true
        ⟨[("a", SshManager.create "i1" "T0" "a" "h0" "u0" 22 none none none)], []⟩ "a" true =
      (some (SshManager.generate_ssh_command (SshManager.create "i1" "T0" "a" "h0" "u0" 22
        none none none)),
       ⟨[("a", SshManager.create "i1" "T0" "a" "h0" "u0" 22 none none none)], []⟩) :=
  ⟨(C6_connect.1 "T9"
      ⟨[("a", SshGui.create "i1" "T0" "a" "h0" "u0" 22 none none none none)], []⟩ "a" "s"
      (SshGui.create "i1" "T0" "a" "h0" "u0" 22 none none none none) (by decide)).1 true
      (by decide),
   (C6_connect.1 "T9"
      ⟨[("a", SshGui.create "i1" "T0" "a" "h0" "u0" 22 none none none none)], []⟩ "a" "c"
      (SshGui.create "i1" "T0" "a" "h0" "u0" 22 none none none none) (by decide)).2 true
      rfl,
   (C6_connect.2.2 "T9" true
      ⟨[("a", SshManager.create "i1" "T0" "a" "h0" "u0" 22 none none none)], []⟩ "a"
      (SshManager.create "i1" "T0" "a" "h0" "u0" 22 none none none) (by decide)).1⟩

/-- C7: from_dict reconstructs a profile from any record holding the four
required keys, filling the documented defaults for every absent optional key
(port 22, null key and jump host, default description, empty tags, current
time for created_at, null last_used, zero use_count), ignores unknown extra
keys entirely, and fails on any record missing a required key. -/
theorem C7_from_record :
    (∀ (now : String) (data : SshGui.Record) (n h u i : String),
      data.name = some n → data.host = some h → data.username = some u →
      data.id = some i →
      SshGui.from_dict now data =
        some ⟨i, n, h, u, data.port.getD 22, data.private_key_path.getD none,
          data.jump_host.getD none,
          descriptionOrDefault (data.description.getD none) h,
          data.tags.getD [], data.created_at.getD now, data.last_used.getD none,
          data.use_count.getD 0⟩) ∧
    (∀ (now : String) (data : SshGui.Record) (e : List (String × String)),
      SshGui.from_dict now { data with extra := e } = SshGui.from_dict now data) ∧
    (∀ (now : String) (data : SshGui.Record),
      data.name = none ∨ data.host = none ∨ data.username = none ∨ data.id = none →
      SshGui.from_dict now data = none) := by
  refine ⟨?_, ?_, ?_⟩
  · intro now data n h u i hn hh hu hi
    obtain ⟨did, dname, dhost, dusr, dport, dkey, djump, ddesc, dtags, dcr, dlu, duc, dex⟩ :=
      data
    simp only at hn hh hu hi
    subst hn hh hu hi
    simp [SshGui.from_dict, SshGui.create]
  · intro now data e
    obtain ⟨did, dname, dhost, dusr, dport, dkey, djump, ddesc, dtags, dcr, dlu, duc, dex⟩ :=
      data
    rfl
  · intro now data hmiss
    obtain ⟨did, dname, dhost, dusr, dport, dkey, djump, ddesc, dtags, dcr, dlu, duc, dex⟩ :=
      data
    rcases hmiss with h | h | h | h
    · simp only at h
      subst h
      cases dhost <;> cases dusr <;> cases did <;> rfl
    · simp only at h
      subst h
      cases dname <;> cases dusr <;> cases did <;> rfl
    · simp only at h
      subst h
      cases dname <;> cases dhost <;> cases did <;> rfl
    · simp only at h
      subst h
      cases dname <;> cases dhost <;> cases dusr <;> rfl

/-- Witness for C7: a record with only the required keys receives every
default, and a record missing the host key fails. -/
theorem C7_from_record_witness :
    SshGui.from_dict "T"
        ⟨some "i", some "n", some "h", some "u", none, none, none, none, none, none, none,
          none, [("color", "red")]⟩ =
      some ⟨"i", "n", "h", "u", 22, none, none, "SSH connection to " ++ "h", [], "T", none,
        0⟩ ∧
    SshGui.from_dict "T"
        ⟨some "i", some "n", none, some "u", none, none, none, none, none, none, none,
          none, []⟩ =
      none :=
  ⟨C7_from_record.1 "T"
      ⟨some "i", some "n", some "h", some "u", none, none, none, none, none, none, none,
        none, [("color", "red")]⟩ "n" "h" "u" "i" rfl rfl rfl rfl,
   C7_from_record.2.2 "T"
      ⟨some "i", some "n", none, some "u", none, none, none, none, none, none, none, none,
        []⟩ (Or.inr (Or.inl rfl))⟩

/-- C8 counterexample: on an empty registry show_statistics prints a
no-profiles notice and returns without reporting any aggregate at all — in
particular it does not report zero counts and an empty port histogram, which
refutes the claim's empty-registry clause at the concrete empty registry. -/
theorem C8_stats_counterexample : SshGui.show_statistics ⟨[], []⟩ = none := rfl

/-- C8 (amended): the statistics aggregates are computed on demand from the
registry, but on an empty registry the statistics report is a no-profiles
notice with no counts and no histogram at all; on a non-empty registry the
aggregates are reported, where the with-key and with-jump counts equal the
number of profiles whose key path and jump host are non-null and non-empty,
the port histogram maps every port to the number of profiles using it, and
the most-used ranking is the five-element head of a reordering of the
registry values that is sorted by use_count descending and preserves registry
iteration order inside every class of equal use_count (the stable descending
sort). -/
theorem C8_stats_amended :
    (∀ st : SshGui.SSHManagerGUI, st.profiles = [] → SshGui.show_statistics st = none) ∧
    (∀ st : SshGui.SSHManagerGUI, st.profiles ≠ [] →
      SshGui.show_statistics st =
        some ⟨SshGui.statTotal st.profiles, SshGui.with_keys st.profiles,
          SshGui.with_jump st.profiles, SshGui.never_used st.profiles,
          SshGui.ports_hist st.profiles, SshGui.most_used st.profiles⟩) ∧
    (∀ profiles : List (String × SshGui.SSHProfile),
      SshGui.with_keys profiles =
        ((dvalues profiles).filter (fun p =>
          decide (p.private_key_path ≠ none ∧ p.private_key_path ≠ some ""))).length) ∧
    (∀ profiles : List (String × SshGui.SSHProfile),
      SshGui.with_jump profiles =
        ((dvalues profiles).filter (fun p =>
          decide (p.jump_host ≠ none ∧ p.jump_host ≠ some ""))).length) ∧
    (∀ (profiles : List (String × SshGui.SSHProfile)) (k : Int),
      SshGui.histCount (SshGui.ports_hist profiles) k =
        (dvalues profiles).countP (fun p => p.port == k)) ∧
    (∀ profiles : List (String × SshGui.SSHProfile),
      SshGui.most_used profiles = (SshGui.sortByUse (dvalues profiles)).take 5) ∧
    (∀ l : List SshGui.SSHProfile, (SshGui.sortByUse l).Perm l) ∧
    (∀ l : List SshGui.SSHProfile,
      (SshGui.sortByUse l).Pairwise (fun a b => b.use_count ≤ a.use_count)) ∧
    (∀ (l : List SshGui.SSHProfile) (c : Int),
      (SshGui.sortByUse l).filter (fun q => q.use_count == c) =
        l.filter (fun q => q.use_count == c)) := by
  refine ⟨?_, ?_, ?_, ?_, ?_, fun profiles => rfl, sortByUse_perm, sortByUse_pairwise,
    filter_sortByUse⟩
  · intro st h
    simp [SshGui.show_statistics, h]
  · intro st h
    cases hp : st.profiles with
    | nil => exact absurd hp h
    | cons a l => simp [SshGui.show_statistics, hp]
  · intro profiles
    rw [SshGui.with_keys, List.countP_eq_length_filter]
    congr 1
    exact List.filter_congr (fun p _ => optStrTruthy_eq_decide _)
  · intro profiles
    rw [SshGui.with_jump, List.countP_eq_length_filter]
    congr 1
    exact List.filter_congr (fun p _ => optStrTruthy_eq_decide _)
  · intro profiles k
    have h := histCount_foldl (dvalues profiles) [] k
    simpa [SshGui.ports_hist, SshGui.histCount] using h

/-- Witness for C8: the empty registry reports no statistics, and a singleton
registry reports its aggregates. -/
theorem C8_stats_amended_witness :
    SshGui.show_statistics ⟨[], []⟩ = none ∧
    SshGui.show_statistics
        ⟨[("a", SshGui.create "i" "T" "a" "h" "u" 22 none none none none)], []⟩ =
      some
        ⟨SshGui.statTotal [("a", SshGui.create "i" "T" "a" "h" "u" 22 none none none none)],
         SshGui.with_keys [("a", SshGui.create "i" "T" "a" "h" "u" 22 none none none none)],
         SshGui.with_jump [("a", SshGui.create "i" "T" "a" "h" "u" 22 none none none none)],
         SshGui.never_used [("a", SshGui.create "i" "T" "a" "h" "u" 22 none none none
           none)],
         SshGui.ports_hist [("a", SshGui.create "i" "T" "a" "h" "u" 22 none none none
           none)],
         SshGui.most_used [("a", SshGui.create "i" "T" "a" "h" "u" 22 none none none
           none)]⟩ :=
  ⟨C8_stats_amended.1 ⟨[], []⟩ rfl,
   C8_stats_amended.2.1
      ⟨[("a", SshGui.create "i" "T" "a" "h" "u" 22 none none none none)], []⟩
      (by decide)⟩

/-- C9: after every completed registry operation (load, add, remove,
interactive edit including rename, import, reset) every entry of the
in-memory registry is stored under exactly the key equal to its own name
field, with pairwise distinct keys — so profile names stay unique. -/
theorem C9_keyed_invariant :
    (∀ (now : String) (file : SshManager.FileState) (st : SshManager.SSHManager),
      Keyed SshManager.SSHProfile.name st.profiles →
      Keyed SshManager.SSHProfile.name
        (SshManager.load_profiles now file st).1.profiles) ∧
    (∀ (freshId now : String) (st : SshManager.SSHManager) (name host username : String)
        (port : Int) (key jump desc : Option String),
      Keyed SshManager.SSHProfile.name st.profiles →
      Keyed SshManager.SSHProfile.name
        (SshManager.add_profile freshId now st name host username port key jump
          desc).2.profiles) ∧
    (∀ (st : SshManager.SSHManager) (name : String),
      Keyed SshManager.SSHProfile.name st.profiles →
      Keyed SshManager.SSHProfile.name (SshManager.remove_profile st name).2.profiles) ∧
    (∀ (st : SshGui.SSHManagerGUI) (selectedName : String) (inp : SshGui.EditInput),
      Keyed SshGui.SSHProfile.name st.profiles →
      Keyed SshGui.SSHProfile.name
        (SshGui.edit_profile_interactive st selectedName inp).profiles) ∧
    (∀ (now : String) (ask : String → Bool) (st : SshGui.SSHManagerGUI)
        (records : List SshGui.Record),
      Keyed SshGui.SSHProfile.name st.profiles →
      Keyed SshGui.SSHProfile.name (SshGui.import_profiles now ask st records).profiles) ∧
    (∀ (st : SshGui.SSHManagerGUI) (confirm : String),
      Keyed SshGui.SSHProfile.name st.profiles →
      Keyed SshGui.SSHProfile.name (SshGui.reset_profiles st confirm).profiles) := by
  refine ⟨?_, ?_, ?_, ?_, ?_, ?_⟩
  · intro now file st h
    cases file with
    | absent => exact h
    | invalidJson => exact h
    | doc pk => exact loadList_keyed_mgr now (pk.getD []) st.profiles h
  · intro freshId now st name host username port key jump desc h
    by_cases hd : dmem name st.profiles = true
    · simp only [SshManager.add_profile, if_pos hd]
      exact h
    · simp only [SshManager.add_profile, if_neg hd]
      exact keyed_dinsert h rfl
  · intro st name h
    by_cases hd : dmem name st.profiles = true
    · simp only [SshManager.remove_profile, if_pos hd]
      exact keyed_dremove name h
    · simp only [SshManager.remove_profile, if_neg hd]
      exact h
  · intro st selectedName inp h
    cases hget : dget selectedName st.profiles with
    | none =>
      simp only [SshGui.edit_profile_interactive, hget]
      exact h
    | some profile =>
      simp only [SshGui.edit_profile_interactive, hget]
      by_cases hr : inp.new_name ≠ "" ∧ inp.new_name ≠ profile.name
      · rw [if_pos hr]
        by_cases hd : dmem inp.new_name st.profiles = true
        · rw [if_pos hd]
          exact h
        · rw [if_neg hd]
          exact keyed_dinsert (keyed_dremove _ h) rfl
      · rw [if_neg hr]
        exact keyed_dinsert h rfl
  · intro now ask st records h
    have hk := importLoop_keyed now ask records st.profiles h
    simp only [SshGui.import_profiles]
    split
    · exact hk
    · exact hk
  · intro st confirm h
    by_cases hc : confirm = "DELETE ALL"
    · simp only [SshGui.reset_profiles, if_pos hc]
      exact keyed_nil _
    · simp only [SshGui.reset_profiles, if_neg hc]
      exact h

/-- Witness for C9: each operation applied to a small concrete registry that
satisfies the invariant. -/
theorem C9_keyed_invariant_witness :
    Keyed SshManager.SSHProfile.name
      (SshManager.load_profiles "T"
        (SshManager.FileState.doc (some [Fixtures.goodRec])) ⟨[], []⟩).1.profiles ∧
    Keyed SshManager.SSHProfile.name
      (SshManager.add_profile "i" "T" ⟨[], []⟩ "a" "h" "u" 22 none none
        none).2.profiles ∧
    Keyed SshManager.SSHProfile.name
      (SshManager.remove_profile
        ⟨[("a", SshManager.create "i" "T" "a" "h" "u" 22 none none none)], []⟩
        "a").2.profiles ∧
    Keyed SshGui.SSHProfile.name
      (SshGui.edit_profile_interactive
        ⟨[("a", SshGui.create "i" "T" "a" "h" "u" 22 none none none none)], []⟩ "a"
        ⟨"b", "", "", "", "", "", ""⟩).profiles ∧
    Keyed SshGui.SSHProfile.name
      (SshGui.import_profiles "T" (fun _ => true) ⟨[], []⟩
        [SshGui.to_dict (SshGui.create "i" "T" "a" "h" "u" 22 none none none
          none)]).profiles ∧
    Keyed SshGui.SSHProfile.name
      (SshGui.reset_profiles
        ⟨[("a", SshGui.create "i" "T" "a" "h" "u" 22 none none none none)], []⟩
        "DELETE ALL").profiles :=
  ⟨C9_keyed_invariant.1 "T" (SshManager.FileState.doc (some [Fixtures.goodRec])) ⟨[], []⟩
      (by decide),
   C9_keyed_invariant.2.1 "i" "T" ⟨[], []⟩ "a" "h" "u" 22 none none none (by decide),
   C9_keyed_invariant.2.2.1
      ⟨[("a", SshManager.create "i" "T" "a" "h" "u" 22 none none none)], []⟩ "a"
      (by decide),
   C9_keyed_invariant.2.2.2.1
      ⟨[("a", SshGui.create "i" "T" "a" "h" "u" 22 none none none none)], []⟩ "a"
      ⟨"b", "", "", "", "", "", ""⟩ (by decide),
   C9_keyed_invariant.2.2.2.2.1 "T" (fun _ => true) ⟨[], []⟩
      [SshGui.to_dict (SshGui.create "i" "T" "a" "h" "u" 22 none none none none)]
      (by decide),
   C9_keyed_invariant.2.2.2.2.2
      ⟨[("a", SshGui.create "i" "T" "a" "h" "u" 22 none none none none)], []⟩
      "DELETE ALL" (by decide)⟩

/-- C10: a record whose description key is present but holds null or the
empty string deserializes to the default description built from the host, a
deserialized profile never has an empty description, and neither does any
profile built by the constructor. -/
theorem C10_description_default :
    (∀ (now : String) (data : SshGui.Record) (h : String),
      data.host = some h →
      (data.description = some none ∨ data.description = some (some "")) →
      ∀ p, SshGui.from_dict now data = some p →
        p.description = "SSH connection to " ++ h) ∧
    (∀ (now : String) (data : SshGui.Record) (p : SshGui.SSHProfile),
      SshGui.from_dict now data = some p → p.description ≠ "") ∧
    (∀ (freshId now name host username : String) (port : Int)
        (key jump desc : Option String) (tags : Option (List String)),
      (SshGui.create freshId now name host username port key jump desc
        tags).description ≠ "") := by
  refine ⟨?_, ?_, ?_⟩
  · intro now data h hh hdesc p hp
    obtain ⟨did, dname, dhost, dusr, dport, dkey, djump, ddesc, dtags, dcr, dlu, duc, dex⟩ :=
      data
    simp only at hh
    subst hh
    rcases hdesc with hd | hd <;> simp only at hd <;> subst hd <;>
      cases dname <;> cases dusr <;> cases did <;>
        first
          | exact Option.noConfusion hp
          | (injection hp with hX
             rw [← hX]
             rfl)
  · intro now data p hp
    obtain ⟨did, dname, dhost, dusr, dport, dkey, djump, ddesc, dtags, dcr, dlu, duc, dex⟩ :=
      data
    cases dname <;> cases dhost <;> cases dusr <;> cases did <;>
      first
        | exact Option.noConfusion hp
        | (injection hp with hX
           rw [← hX]
           exact descriptionOrDefault_ne _ _)
  · intro freshId now name host username port key jump desc tags
    exact create_description_ne_gui _ _ _ _ _ _ _ _ _ _

/-- Witness for C10: a record with a null description and one with an empty
description both deserialize to the default. -/
theorem C10_description_default_witness :
    (∀ p, SshGui.from_dict "T"
        ⟨some "i", some "n", some "h", some "u", none, none, none, some none, none, none,
          none, none, []⟩ = some p →
      p.description = "SSH connection to " ++ "h") ∧
    (∀ p, SshGui.from_dict "T"
        ⟨some "i", some "n", some "h", some "u", none, none, none, some (some ""), none,
          none, none, none, []⟩ = some p →
      p.description = "SSH connection to " ++ "h") :=
  ⟨C10_description_default.1 "T"
      ⟨some "i", some "n", some "h", some "u", none, none, none, some none, none, none,
        none, none, []⟩ "h" rfl (Or.inl rfl),
   C10_description_default.1 "T"
      ⟨some "i", some "n", some "h", some "u", none, none, none, some (some ""), none,
        none, none, none, []⟩ "h" rfl (Or.inr rfl)⟩
